import Mathlib

/-!
Verification of the DuoFern protocol core (homeassistant-duofern).

Shallow embedding of `custom_components/duofern/protocol.py` and
`custom_components/duofern/stick.py`:

  * frames are `List Nat` values (one entry per byte);
  * the encoder builds a zeroed 22-byte buffer and writes fields in place,
    mirroring the Python `bytearray` construction byte for byte;
  * the decoder's classification predicates, identifier extraction and
    status parsing are translated function by function;
  * `bytes.fromhex` (with its skipping of ASCII spaces between byte pairs)
    is modelled explicitly, since `DuoFernId.from_hex` and
    `DuoFernDecoder._ensure_bytes` rely on it;
  * the byte-stream framer (`DuoFernSerialProtocol.data_received` /
    `_flush_buffer`) is modelled as a pure buffer-transforming function;
  * the initialization handshake (`DuoFernStick._init_sequence`) is modelled
    as a pure function of a reply oracle, recording the trace of awaited
    steps per attempt;
  * `DuoFernStick.send_command` and `DuoFernStick._on_frame_received` are
    modelled over an explicit stick state / event trace.
-/

namespace DuoFern

/-- const.py: FRAME_SIZE_BYTES = 22. -/
def FRAME_SIZE_BYTES : Nat := 22

/-- const.py: FRAME_SIZE_HEX = 44. -/
def FRAME_SIZE_HEX : Nat := 44

/-- const.py: INIT_RETRY_COUNT = 4. -/
def INIT_RETRY_COUNT : Nat := 4

/-- protocol.py `DuoFernId`: a 3-byte identifier stored as raw bytes.
The Python `__post_init__` length-3 check is modelled by `mkDuoFernId`. -/
structure DuoFernId where
  raw : List Nat
deriving Repr, DecidableEq

/-- protocol.py `DuoFernId.__post_init__`: constructing an identifier whose
raw value is not exactly 3 bytes raises; modelled as an `Option`. -/
def mkDuoFernId (raw : List Nat) : Option DuoFernId :=
  if raw.length = 3 then some ⟨raw⟩ else none

/-- protocol.py `CoverCommand` (IntEnum). -/
inductive CoverCommand
  | up
  | stop
  | down
  | position
  | toggle
deriving Repr, DecidableEq

/-- The 16-bit command codes of `CoverCommand`. -/
def CoverCommand.code : CoverCommand → Nat
  | .up => 0x0701
  | .stop => 0x0702
  | .down => 0x0703
  | .position => 0x0707
  | .toggle => 0x071A

/-- protocol.py `DuoFernEncoder._frame`: a zeroed 22-byte frame. -/
def mkFrame : List Nat := List.replicate FRAME_SIZE_BYTES 0

/-- Write one byte at index `i` (Python `frame[i] = v`). -/
def setByte (f : List Nat) (i v : Nat) : List Nat := f.set i v

/-- Write a run of bytes starting at index `i`
(Python slice assignment `frame[i:i+len(vs)] = vs`). -/
def setSlice (f : List Nat) (i : Nat) (vs : List Nat) : List Nat :=
  match vs with
  | [] => f
  | v :: rest => setSlice (f.set i v) (i + 1) rest

/-- protocol.py `DuoFernEncoder.build_init1`. -/
def build_init1 : List Nat :=
  setByte mkFrame 0 0x01

/-- protocol.py `DuoFernEncoder.build_init2`. -/
def build_init2 : List Nat :=
  setByte mkFrame 0 0x0E

/-- protocol.py `DuoFernEncoder.build_set_dongle`. -/
def build_set_dongle (system_code : DuoFernId) : List Nat :=
  let f := mkFrame
  let f := setByte f 0 0x0A
  let f := setSlice f 1 system_code.raw
  let f := setByte f 4 0x00
  let f := setByte f 5 0x01
  f

/-- protocol.py `DuoFernEncoder.build_init3`. -/
def build_init3 : List Nat :=
  let f := mkFrame
  let f := setByte f 0 0x14
  let f := setByte f 1 0x14
  f

/-- protocol.py `DuoFernEncoder.build_set_pair`. -/
def build_set_pair (index : Nat) (device_code : DuoFernId) : List Nat :=
  let f := mkFrame
  let f := setByte f 0 0x03
  let f := setByte f 1 (index &&& 0xFF)
  let f := setSlice f 2 device_code.raw
  f

/-- protocol.py `DuoFernEncoder.build_init_end`. -/
def build_init_end : List Nat :=
  let f := mkFrame
  let f := setByte f 0 0x10
  let f := setByte f 1 0x01
  f

/-- protocol.py `DuoFernEncoder.build_ack`. -/
def build_ack : List Nat :=
  setByte mkFrame 0 0x81

/-- protocol.py `DuoFernEncoder.build_status_request_broadcast`. -/
def build_status_request_broadcast : List Nat :=
  let f := mkFrame
  let f := setByte f 0 0x0D
  let f := setByte f 1 0xFF
  let f := setByte f 2 0x0F
  let f := setByte f 3 0x40
  let f := setByte f 18 0xFF
  let f := setByte f 19 0xFF
  let f := setByte f 20 0xFF
  let f := setByte f 21 0x01
  f

/-- protocol.py `DuoFernEncoder.build_status_request`
(the Python default for `status_type` is 0x0F). -/
def build_status_request (device_code : DuoFernId) (system_code : DuoFernId)
    (status_type : Nat) : List Nat :=
  let f := mkFrame
  let f := setByte f 0 0x0D
  let f := setByte f 1 0xFF
  let f := setByte f 2 status_type
  let f := setByte f 3 0x40
  let f := setSlice f 18 device_code.raw
  let f := setByte f 21 0x01
  f

/-- protocol.py `DuoFernEncoder.build_cover_command`. The Python `position`
argument is an optional signed integer, clamped with `max(0, min(100, p))`. -/
def build_cover_command (command : CoverCommand)
    (device_code : DuoFernId) (system_code : DuoFernId)
    (position : Option Int) (timer : Bool) (channel : Nat) : List Nat :=
  let f := mkFrame
  let f := setByte f 0 0x0D
  let f := setByte f 1 channel
  let f := setByte f 2 ((CoverCommand.code command >>> 8) &&& 0xFF)
  let f := setByte f 3 (CoverCommand.code command &&& 0xFF)
  let timer_byte : Nat := if timer then 0x01 else 0x00
  let f :=
    if command = CoverCommand.up ∨ command = CoverCommand.down then
      setByte f 4 timer_byte
    else if command = CoverCommand.position then
      let f := setByte f 4 timer_byte
      match position with
      | some p => setByte f 5 (max 0 (min 100 p)).toNat
      | none => setByte f 5 0
    else
      f
  let f := setByte f 12 0x00
  let f := setByte f 13 0x00
  let f := setByte f 14 0x00
  let f := setSlice f 15 system_code.raw
  let f := setSlice f 18 device_code.raw
  let f := setByte f 21 0x00
  f

/-- protocol.py `DuoFernEncoder.build_start_pair`. -/
def build_start_pair : List Nat :=
  setByte mkFrame 0 0x04

/-- protocol.py `DuoFernEncoder.build_stop_pair`. -/
def build_stop_pair : List Nat :=
  setByte mkFrame 0 0x05

/-- protocol.py `DuoFernEncoder.build_start_unpair`. -/
def build_start_unpair : List Nat :=
  setByte mkFrame 0 0x07

/-- protocol.py `DuoFernEncoder.build_stop_unpair`. -/
def build_stop_unpair : List Nat :=
  setByte mkFrame 0 0x08

/-- protocol.py `DuoFernDecoder.is_ack`: byte 0 equals MessageType.ACK (0x81). -/
def is_ack (f : List Nat) : Bool :=
  f.getD 0 0 == 0x81

/-- protocol.py `DuoFernDecoder.extract_device_code`: bytes [18..20] for ACK
frames, bytes [15..17] otherwise (Python `frame[18:21]` / `frame[15:18]`).
The Python code wraps the slice in `DuoFernId`; we return its raw bytes. -/
def extract_device_code (f : List Nat) : List Nat :=
  if f.getD 0 0 == 0x81 then (f.drop 18).take 3
  else (f.drop 15).take 3

/-- protocol.py `DuoFernDecoder.extract_device_code_from_status`: bytes [15..17]. -/
def extract_device_code_from_status (f : List Nat) : List Nat :=
  (f.drop 15).take 3

/-- protocol.py `DuoFernDecoder.is_status_response`: bytes 0FFF0F. -/
def is_status_response (f : List Nat) : Bool :=
  f.getD 0 0 == 0x0F && f.getD 1 0 == 0xFF && f.getD 2 0 == 0x0F

/-- protocol.py `DuoFernDecoder.is_pair_response`: bytes 0602. -/
def is_pair_response (f : List Nat) : Bool :=
  f.getD 0 0 == 0x06 && f.getD 1 0 == 0x02

/-- protocol.py `DuoFernDecoder.is_unpair_response`: bytes 0603. -/
def is_unpair_response (f : List Nat) : Bool :=
  f.getD 0 0 == 0x06 && f.getD 1 0 == 0x03

/-- protocol.py `DuoFernDecoder.is_broadcast_status_ack`: bytes 0FFF11. -/
def is_broadcast_status_ack (f : List Nat) : Bool :=
  f.getD 0 0 == 0x0F && f.getD 1 0 == 0xFF && f.getD 2 0 == 0x11

/-- protocol.py `DuoFernDecoder.should_dispatch`: false for ACKs and for the
broadcast status ack, true for everything else. -/
def should_dispatch (f : List Nat) : Bool :=
  if f.getD 0 0 == 0x81 then false
  else if f.getD 0 0 == 0x0F && f.getD 1 0 == 0xFF && f.getD 2 0 == 0x11 then false
  else true

/-- protocol.py `DeviceStatus` dataclass. Field defaults are in
`DeviceStatus.default`; Python strings become Lean strings. -/
structure DeviceStatus where
  position : Option Nat
  moving : String
  time_automatic : Option Bool
  sun_automatic : Option Bool
  dawn_automatic : Option Bool
  dusk_automatic : Option Bool
  manual_mode : Option Bool
  ventilating_mode : Option Bool
  sun_mode : Option Bool
  sun_position : Option Nat
  ventilating_position : Option Nat
  version : Option String
deriving Repr, DecidableEq

/-- The dataclass defaults of `DeviceStatus` (everything None, moving "stop"). -/
def DeviceStatus.default : DeviceStatus where
  position := none
  moving := "stop"
  time_automatic := none
  sun_automatic := none
  dawn_automatic := none
  dusk_automatic := none
  manual_mode := none
  ventilating_mode := none
  sun_mode := none
  sun_position := none
  ventilating_position := none
  version := none

/-- protocol.py `parse_status_type40`'s inner `read_word`: the 16-bit
big-endian word at frame bytes [3+pos, 4+pos], 0 when out of range. -/
def read_word (f : List Nat) (pos : Nat) : Nat :=
  let byte_offset := 3 + pos
  if byte_offset + 1 ≥ FRAME_SIZE_BYTES then 0
  else (f.getD byte_offset 0 <<< 8) ||| f.getD (byte_offset + 1) 0

/-- protocol.py `parse_status_type40`'s inner `extract_bits`. -/
def extract_bits (word from_bit to_bit : Nat) : Nat :=
  (word >>> from_bit) &&& ((1 <<< (to_bit - from_bit + 1)) - 1)

/-- protocol.py `DuoFernDecoder.parse_status_type40`: status parsing for
format "21"; returns the dataclass defaults when the frame is not a status
response, otherwise fills every field from the bit layout, always leaving
`moving` at "stop". -/
def parse_status_type40 (f : List Nat) : DeviceStatus :=
  if !is_status_response f then DeviceStatus.default
  else
    let ver_byte := f.getD 12 0
    let word7 := read_word f 7
    let word0 := read_word f 0
    let word1 := read_word f 1
    let word2 := read_word f 2
    let word6 := read_word f 6
    { position := some (extract_bits word7 0 6)
      moving := "stop"
      time_automatic := some (extract_bits word0 0 0 != 0)
      sun_automatic := some (extract_bits word0 2 2 != 0)
      dusk_automatic := some (extract_bits word0 3 3 != 0)
      manual_mode := some (extract_bits word0 7 7 != 0)
      dawn_automatic := some (extract_bits word1 3 3 != 0)
      ventilating_position := some (extract_bits word2 0 6)
      ventilating_mode := some (extract_bits word2 7 7 != 0)
      sun_position := some (extract_bits word6 0 6)
      sun_mode := some (extract_bits word6 7 7 != 0)
      version := some (toString ((ver_byte >>> 4) &&& 0x0F) ++ "." ++ toString (ver_byte &&& 0x0F)) }

/-- Value of a hex digit character, none for non-hex characters
(models what Python's `bytes.fromhex` accepts as a digit). -/
def hexDigit (c : Char) : Option Nat :=
  if '0' ≤ c ∧ c ≤ '9' then some (c.toNat - '0'.toNat)
  else if 'a' ≤ c ∧ c ≤ 'f' then some (c.toNat - 'a'.toNat + 10)
  else if 'A' ≤ c ∧ c ≤ 'F' then some (c.toNat - 'A'.toNat + 10)
  else none

/-- True when `hexDigit` accepts the character. -/
def isHexChar (c : Char) : Bool :=
  (hexDigit c).isSome

/-- Python `bytes.fromhex` / `bytearray.fromhex`: two hex digits per byte,
ASCII spaces between byte pairs (also leading/trailing) are skipped; a space
inside a pair, a non-hex character, or a dangling single digit is an error. -/
def fromhexCore : List Char → Option (List Nat)
  | [] => some []
  | c :: rest =>
    if c = ' ' then fromhexCore rest
    else
      match rest with
      | [] => none
      | c2 :: rest2 =>
        match hexDigit c, hexDigit c2, fromhexCore rest2 with
        | some hh, some ll, some bs => some ((16 * hh + ll) :: bs)
        | _, _, _ => none

/-- protocol.py `DuoFernId.from_hex`: length-6 check, then `bytes.fromhex`,
then the `__post_init__` length-3 check (`mkDuoFernId`). -/
def DuoFernId.from_hex (s : String) : Option DuoFernId :=
  if s.length ≠ 6 then none
  else
    match fromhexCore s.data with
    | none => none
    | some raw => mkDuoFernId raw

/-- The two runtime input kinds accepted by `DuoFernDecoder._ensure_bytes`:
a hex string or a bytes value. -/
inductive RawInput
  | hexStr (s : String)
  | bytes (b : List Nat)
deriving Repr, DecidableEq

/-- protocol.py `DuoFernDecoder._ensure_bytes`: a string must have exactly
FRAME_SIZE_HEX characters and is then parsed with `bytearray.fromhex`;
a bytes value must have exactly FRAME_SIZE_BYTES bytes and is copied. -/
def ensure_bytes : RawInput → Option (List Nat)
  | .hexStr s => if s.length ≠ FRAME_SIZE_HEX then none else fromhexCore s.data
  | .bytes b => if b.length ≠ FRAME_SIZE_BYTES then none else some b

/-- stick.py `DuoFernSerialProtocol.data_received`, inner while loop, with
an explicit iteration bound: repeatedly slice a full 22-byte frame off the
front of the buffer while at least 22 bytes are buffered; returns the
emitted frames in order and the remaining buffer. Each iteration removes 22
bytes, so a bound equal to the buffer length always suffices
(see `drainFrames`). -/
def drainFramesGo : Nat → List Nat → List (List Nat) × List Nat
  | 0, buf => ([], buf)
  | fuel + 1, buf =>
    if FRAME_SIZE_BYTES ≤ buf.length then
      let out := drainFramesGo fuel (buf.drop FRAME_SIZE_BYTES)
      (buf.take FRAME_SIZE_BYTES :: out.1, out.2)
    else
      ([], buf)

/-- The while loop of `data_received`, at its natural iteration bound. -/
def drainFrames (buf : List Nat) : List (List Nat) × List Nat :=
  drainFramesGo buf.length buf

/-- stick.py `DuoFernSerialProtocol.data_received` (normal operation, no
init-response future set): append the chunk to the buffer, then drain
complete frames. State is the buffer; the emitted frames are returned. -/
def data_received (buf chunk : List Nat) : List (List Nat) × List Nat :=
  drainFrames (buf ++ chunk)

/-- stick.py `DuoFernSerialProtocol._flush_buffer`: after the flush deadline
the partial buffer is discarded entirely. -/
def flush_buffer (_buf : List Nat) : List Nat := []

/-- Feeding a sequence of chunks through `data_received`, accumulating the
emitted frames in order. -/
def processChunks (chunks : List (List Nat)) : List (List Nat) × List Nat :=
  chunks.foldl
    (fun acc chunk =>
      let out := data_received acc.2 chunk
      (acc.1 ++ out.1, out.2))
    ([], [])

/-- The await-reply steps of stick.py `DuoFernStick._init_sequence`, in order:
Init1, Init2, SetDongle, Init3, one SetPair per paired device, InitEnd and
the status broadcast. -/
inductive InitStep
  | init1
  | init2
  | setDongle
  | init3
  | setPair (idx : Nat)
  | initEnd
  | statusBroadcast
deriving Repr, DecidableEq

/-- True for the per-device SetPair registration steps. -/
def InitStep.isSetPair : InitStep → Bool
  | .setPair _ => true
  | _ => false

/-- Result of one handshake attempt: whether it completed, plus the ordered
trace of steps that were sent and awaited. -/
structure AttemptResult where
  success : Bool
  trace : List InitStep
deriving Repr, DecidableEq

/-- One iteration of the attempt loop in `DuoFernStick._init_sequence`.
`ok s` tells whether the await for step `s` receives a reply before the
timeout (`_send_and_wait` returning a frame) or times out (returning None).
A None reply at any step except SetPair abandons the attempt (`continue` on
the outer for loop); a None reply for a SetPair slot is logged and skipped
(`continue` on the inner for loop), never aborting the attempt. -/
def runAttempt (devices : List DuoFernId) (ok : InitStep → Bool) : AttemptResult :=
  if !ok .init1 then ⟨false, [.init1]⟩
  else if !ok .init2 then ⟨false, [.init1, .init2]⟩
  else if !ok .setDongle then ⟨false, [.init1, .init2, .setDongle]⟩
  else if !ok .init3 then ⟨false, [.init1, .init2, .setDongle, .init3]⟩
  else
    let pairSteps := (List.range devices.length).map InitStep.setPair
    let header : List InitStep := [.init1, .init2, .setDongle, .init3]
    if !ok .initEnd then ⟨false, header ++ pairSteps ++ [.initEnd]⟩
    else if !ok .statusBroadcast then
      ⟨false, header ++ pairSteps ++ [.initEnd, .statusBroadcast]⟩
    else ⟨true, header ++ pairSteps ++ [.initEnd, .statusBroadcast]⟩

/-- The attempt loop of `DuoFernStick._init_sequence`: run attempts until one
succeeds or `remaining` attempts are exhausted, at which point a
ConnectionError is raised. `ok a s` is the reply oracle for attempt `a`.
Returns the outcome and the trace of every attempt made. -/
def initSeqGo (devices : List DuoFernId) (ok : Nat → InitStep → Bool) :
    Nat → Nat → Except String Unit × List (List InitStep)
  | _, 0 =>
    (Except.error "DuoFern stick initialization failed after 4 attempts", [])
  | attempt, r + 1 =>
    let res := runAttempt devices (ok attempt)
    if res.success then (Except.ok (), [res.trace])
    else
      let rest := initSeqGo devices ok (attempt + 1) r
      (rest.1, res.trace :: rest.2)

/-- stick.py `DuoFernStick._init_sequence`: up to INIT_RETRY_COUNT attempts
starting at attempt 0. -/
def initSequence (devices : List DuoFernId) (ok : Nat → InitStep → Bool) :
    Except String Unit × List (List InitStep) :=
  initSeqGo devices ok 0 INIT_RETRY_COUNT

/-- The fields of stick.py `DuoFernStick` that `send_command` and the
`connected` property consult: `_connected`, `_initialized` and the send
queue contents. -/
structure StickState where
  is_open : Bool
  init_done : Bool
  send_queue : List (List Nat)
deriving Repr, DecidableEq

/-- stick.py `DuoFernStick.connected` property:
serial port open AND init completed. -/
def StickState.connectedProperty (s : StickState) : Bool :=
  s.is_open && s.init_done

/-- stick.py `DuoFernStick.send_command`: raises ConnectionError when
`self._connected` is false (port not open), otherwise puts the frame on the
send queue. Note it checks the `_connected` field only, not the
`connected` property. -/
def send_command (s : StickState) (frame : List Nat) : Except String StickState :=
  if !s.is_open then Except.error "DuoFern stick not connected"
  else Except.ok { s with send_queue := s.send_queue ++ [frame] }

/-- Observable actions of stick.py `DuoFernStick._on_frame_received`:
a frame written to the transport, or a frame dispatched to the message
callback. -/
inductive StickEvent
  | tx (f : List Nat)
  | dispatch (f : List Nat)
deriving Repr, DecidableEq

/-- True for transport writes. -/
def StickEvent.isTx : StickEvent → Bool
  | .tx _ => true
  | .dispatch _ => false

/-- stick.py `DuoFernStick._on_frame_received` as an event trace: a non-ACK
frame is first answered with one ACK write, then dispatched to the message
callback iff `should_dispatch`; an inbound ACK only releases the send queue
(internal state, no write and no dispatch). -/
def on_frame_received (f : List Nat) : List StickEvent :=
  if is_ack f then []
  else
    StickEvent.tx build_ack ::
      (if should_dispatch f then [StickEvent.dispatch f] else [])

example : build_init1 = 0x01 :: List.replicate 21 0 := by decide
example : build_set_dongle ⟨[0x6F, 0x1A, 0x2B]⟩ =
    [0x0A, 0x6F, 0x1A, 0x2B, 0x00, 0x01] ++ List.replicate 16 0 := by decide
example : (build_cover_command .position ⟨[1,2,3]⟩ ⟨[4,5,6]⟩ (some 37) false 1).getD 5 0
    = 37 := by decide
example : (build_cover_command .position ⟨[1,2,3]⟩ ⟨[4,5,6]⟩ (some 150) false 1).getD 5 0
    = 100 := by decide
example : (build_cover_command .position ⟨[1,2,3]⟩ ⟨[4,5,6]⟩ (some (-5)) false 1).getD 5 0
    = 0 := by decide

set_option maxHeartbeats 2000000 in
/-- C1: Every frame produced by any encoder operation (build_init1,
build_init2, build_set_dongle, build_init3, build_set_pair, build_init_end,
build_ack, build_status_request_broadcast, build_status_request,
build_cover_command, build_start_pair, build_stop_pair, build_start_unpair,
build_stop_unpair) is exactly 22 bytes long, and every byte not explicitly
assigned by that message's layout table is zero. Each conjunct states the
full 22-byte layout of one operation, with all unassigned bytes zero. -/
theorem C1_encoder_layout :
    (build_init1 = 0x01 :: List.replicate 21 0) ∧
    (build_init2 = 0x0E :: List.replicate 21 0) ∧
    (∀ a b c : Nat, build_set_dongle ⟨[a, b, c]⟩ =
      [0x0A, a, b, c, 0x00, 0x01] ++ List.replicate 16 0) ∧
    (build_init3 = [0x14, 0x14] ++ List.replicate 20 0) ∧
    (∀ idx a b c : Nat, build_set_pair idx ⟨[a, b, c]⟩ =
      [0x03, idx &&& 0xFF, a, b, c] ++ List.replicate 17 0) ∧
    (build_init_end = [0x10, 0x01] ++ List.replicate 20 0) ∧
    (build_ack = 0x81 :: List.replicate 21 0) ∧
    (build_status_request_broadcast =
      [0x0D, 0xFF, 0x0F, 0x40] ++ List.replicate 14 0 ++ [0xFF, 0xFF, 0xFF, 0x01]) ∧
    (∀ a b c s1 s2 s3 st : Nat,
      build_status_request ⟨[a, b, c]⟩ ⟨[s1, s2, s3]⟩ st =
        [0x0D, 0xFF, st, 0x40] ++ List.replicate 14 0 ++ [a, b, c, 0x01]) ∧
    (∀ (d1 d2 d3 s1 s2 s3 ch : Nat) (timer : Bool) (pos : Option Int) (p : Int),
      (build_cover_command CoverCommand.up ⟨[d1, d2, d3]⟩ ⟨[s1, s2, s3]⟩ pos timer ch =
        [0x0D, ch, 0x07, 0x01, if timer then 0x01 else 0x00] ++ List.replicate 10 0 ++
          [s1, s2, s3, d1, d2, d3, 0]) ∧
      (build_cover_command CoverCommand.stop ⟨[d1, d2, d3]⟩ ⟨[s1, s2, s3]⟩ pos timer ch =
        [0x0D, ch, 0x07, 0x02] ++ List.replicate 11 0 ++
          [s1, s2, s3, d1, d2, d3, 0]) ∧
      (build_cover_command CoverCommand.down ⟨[d1, d2, d3]⟩ ⟨[s1, s2, s3]⟩ pos timer ch =
        [0x0D, ch, 0x07, 0x03, if timer then 0x01 else 0x00] ++ List.replicate 10 0 ++
          [s1, s2, s3, d1, d2, d3, 0]) ∧
      (build_cover_command CoverCommand.toggle ⟨[d1, d2, d3]⟩ ⟨[s1, s2, s3]⟩ pos timer ch =
        [0x0D, ch, 0x07, 0x1A] ++ List.replicate 11 0 ++
          [s1, s2, s3, d1, d2, d3, 0]) ∧
      (build_cover_command CoverCommand.position ⟨[d1, d2, d3]⟩ ⟨[s1, s2, s3]⟩
          (some p) timer ch =
        [0x0D, ch, 0x07, 0x07, if timer then 0x01 else 0x00,
            (max 0 (min 100 p)).toNat] ++ List.replicate 9 0 ++
          [s1, s2, s3, d1, d2, d3, 0]) ∧
      (build_cover_command CoverCommand.position ⟨[d1, d2, d3]⟩ ⟨[s1, s2, s3]⟩
          none timer ch =
        [0x0D, ch, 0x07, 0x07, if timer then 0x01 else 0x00, 0] ++ List.replicate 9 0 ++
          [s1, s2, s3, d1, d2, d3, 0])) ∧
    (build_start_pair = 0x04 :: List.replicate 21 0) ∧
    (build_stop_pair = 0x05 :: List.replicate 21 0) ∧
    (build_start_unpair = 0x07 :: List.replicate 21 0) ∧
    (build_stop_unpair = 0x08 :: List.replicate 21 0) := by
  refine ⟨rfl, rfl, fun a b c => rfl, rfl, fun idx a b c => rfl, rfl, rfl, rfl,
    fun a b c s1 s2 s3 st => rfl, ?_, rfl, rfl, rfl, rfl⟩
  intro d1 d2 d3 s1 s2 s3 ch timer pos p
  exact ⟨rfl, rfl, rfl, rfl, rfl, rfl⟩

/-- A 3-element slice of a list, as its elements at three indices. -/
theorem take3_drop : ∀ (n : Nat) (f : List Nat), n + 3 ≤ f.length →
    (f.drop n).take 3 = [f.getD n 0, f.getD (n + 1) 0, f.getD (n + 2) 0]
  | 0, [], h => by simp at h
  | 0, [_], h => by simp at h
  | 0, [_, _], h => by simp at h
  | 0, _ :: _ :: _ :: _, _ => rfl
  | n + 1, [], h => by simp at h
  | n + 1, a :: t, h => by
    have ih := take3_drop n t (by simp at h; omega)
    simpa [List.getD_cons_succ] using ih

/-- C4: For every 22-byte frame, extract_device_code returns the 3-byte
identifier at bytes [18..20] when frame byte 0 equals 0x81 (ACK), and the
3-byte identifier at bytes [15..17] for every other value of byte 0; and
planting a known identifier at the respective position of an ACK frame and
of a status frame and decoding recovers exactly that identifier. -/
theorem C4_extract_device_code (f : List Nat) (h : f.length = 22) :
    (f.getD 0 0 = 0x81 →
      extract_device_code f = [f.getD 18 0, f.getD 19 0, f.getD 20 0]) ∧
    (f.getD 0 0 ≠ 0x81 →
      extract_device_code f = [f.getD 15 0, f.getD 16 0, f.getD 17 0]) ∧
    (∀ a b c : Nat,
      extract_device_code (0x81 :: (List.replicate 17 0 ++ [a, b, c, 0])) = [a, b, c]) ∧
    (∀ a b c : Nat,
      extract_device_code ([0x0F, 0xFF, 0x0F] ++ List.replicate 12 0 ++
        ([a, b, c] ++ List.replicate 4 0)) = [a, b, c]) := by
  refine ⟨?_, ?_, fun a b c => rfl, fun a b c => rfl⟩
  · intro h0
    unfold extract_device_code
    rw [if_pos (show (f.getD 0 0 == 0x81) = true by simpa using h0)]
    exact take3_drop 18 f (by omega)
  · intro h0
    unfold extract_device_code
    rw [if_neg (show ¬(f.getD 0 0 == 0x81) = true by simpa using h0)]
    exact take3_drop 15 f (by omega)

/-- Closed instance of C4_extract_device_code discharging its hypotheses at
a concrete ACK frame and a concrete status frame. -/
theorem C4_extract_device_code_witness :
    extract_device_code (0x81 :: (List.replicate 17 0 ++ [0x40, 0x1A, 0x2B, 0]))
      = [0x40, 0x1A, 0x2B] ∧
    extract_device_code ([0x0F, 0xFF, 0x0F] ++ List.replicate 12 0 ++
      ([0x40, 0x1A, 0x2B] ++ List.replicate 4 0)) = [0x40, 0x1A, 0x2B] := by
  have h := C4_extract_device_code (List.replicate 22 0) (by decide)
  exact ⟨h.2.2.1 0x40 0x1A 0x2B, h.2.2.2 0x40 0x1A 0x2B⟩

/-- C5: For every 22-byte frame, should_dispatch returns false exactly when
the frame is an ACK (byte0 = 0x81) or a broadcast-status-ack (byte0 = 0x0F,
byte1 = 0xFF, byte2 = 0x11), and true for every other frame. -/
theorem C5_should_dispatch (f : List Nat) (h : f.length = 22) :
    should_dispatch f = false ↔
      f.getD 0 0 = 0x81 ∨
        (f.getD 0 0 = 0x0F ∧ f.getD 1 0 = 0xFF ∧ f.getD 2 0 = 0x11) := by
  unfold should_dispatch
  by_cases h0 : f.getD 0 0 = 0x81 <;> by_cases h1 : f.getD 0 0 = 0x0F <;>
    by_cases h2 : f.getD 1 0 = 0xFF <;> by_cases h3 : f.getD 2 0 = 0x11 <;>
    simp_all

/-- Closed instance of C5_should_dispatch: an ACK and a broadcast-status-ack
are suppressed; a status frame and a pair-response frame are dispatched. -/
theorem C5_should_dispatch_witness :
    should_dispatch (0x81 :: List.replicate 21 0) = false ∧
    should_dispatch ([0x0F, 0xFF, 0x11] ++ List.replicate 19 0) = false ∧
    should_dispatch ([0x0F, 0xFF, 0x0F] ++ List.replicate 19 0) = true ∧
    should_dispatch ([0x06, 0x02] ++ List.replicate 20 0) = true := by
  refine ⟨?_, ?_, ?_, ?_⟩
  · exact (C5_should_dispatch _ (by decide)).mpr (Or.inl (by decide))
  · exact (C5_should_dispatch _ (by decide)).mpr (Or.inr (by decide))
  · have h := C5_should_dispatch ([0x0F, 0xFF, 0x0F] ++ List.replicate 19 0) (by decide)
    cases hd : should_dispatch ([0x0F, 0xFF, 0x0F] ++ List.replicate 19 0) with
    | false => exact absurd (h.mp hd) (by decide)
    | true => rfl
  · have h := C5_should_dispatch ([0x06, 0x02] ++ List.replicate 20 0) (by decide)
    cases hd : should_dispatch ([0x06, 0x02] ++ List.replicate 20 0) with
    | false => exact absurd (h.mp hd) (by decide)
    | true => rfl

/-- C6: For every 22-byte frame whose bytes 0, 1, 2 are 0x0F, 0xFF, 0x0F,
status parsing returns a position equal to bits 0..6 of the big-endian
16-bit word at frame bytes 10 and 11, and always returns the
moving-direction field as "stop", regardless of any bit in the frame. -/
theorem C6_parse_status_position (f : List Nat) (h22 : f.length = 22)
    (h0 : f.getD 0 0 = 0x0F) (h1 : f.getD 1 0 = 0xFF) (h2 : f.getD 2 0 = 0x0F) :
    (parse_status_type40 f).position =
      some ((f.getD 10 0 <<< 8 ||| f.getD 11 0) &&& 0x7F) ∧
    ∀ g : List Nat, (parse_status_type40 g).moving = "stop" := by
  constructor
  · have hs : is_status_response f = true := by
      unfold is_status_response
      rw [h0, h1, h2]
      decide
    unfold parse_status_type40
    rw [hs]
    simp [read_word, extract_bits, FRAME_SIZE_BYTES]
  · intro g
    unfold parse_status_type40
    by_cases hg : is_status_response g = true
    · rw [hg]
      rfl
    · rw [Bool.not_eq_true] at hg
      rw [hg]
      rfl

/-- Closed instance of C6_parse_status_position: a synthetic status frame
with word-7 bits 0..6 set to 42 parses to position 42, moving "stop". -/
theorem C6_parse_status_position_witness :
    (parse_status_type40 ([0x0F, 0xFF, 0x0F] ++ List.replicate 7 0 ++ [0, 42] ++
      List.replicate 10 0)).position = some 42 ∧
    (parse_status_type40 (List.replicate 22 0)).moving = "stop" := by
  have h := C6_parse_status_position
    ([0x0F, 0xFF, 0x0F] ++ List.replicate 7 0 ++ [0, 42] ++ List.replicate 10 0)
    (by decide) (by decide) (by decide) (by decide)
  exact ⟨h.1.trans (by decide), h.2 (List.replicate 22 0)⟩

set_option maxHeartbeats 2000000 in
/-- C7: For every integer position value, encoding a Position cover command
writes max(0, min(100, position)) at frame byte 5, silently clamping; the
position byte is written only for the Position command (byte 5 stays zero
for Up, Stop, Down and Toggle). -/
theorem C7_position_clamped :
    (∀ (p : Int) (timer : Bool) (ch d1 d2 d3 s1 s2 s3 : Nat),
      (build_cover_command CoverCommand.position ⟨[d1, d2, d3]⟩ ⟨[s1, s2, s3]⟩
          (some p) timer ch).getD 5 0 = (max 0 (min 100 p)).toNat) ∧
    (∀ (cmd : CoverCommand) (pos : Option Int) (timer : Bool) (ch d1 d2 d3 s1 s2 s3 : Nat),
      cmd ≠ CoverCommand.position →
      (build_cover_command cmd ⟨[d1, d2, d3]⟩ ⟨[s1, s2, s3]⟩
          pos timer ch).getD 5 0 = 0) := by
  constructor
  · intro p timer ch d1 d2 d3 s1 s2 s3
    cases timer <;> rfl
  · intro cmd pos timer ch d1 d2 d3 s1 s2 s3 hne
    cases cmd <;> first
      | exact absurd rfl hne
      | cases timer <;> cases pos <;> rfl

/-- Closed instance of C7_position_clamped: position 37 stays 37, 150 is
clamped to 100, -5 is clamped to 0, and an Up command leaves byte 5 zero. -/
theorem C7_position_clamped_witness :
    (build_cover_command CoverCommand.position ⟨[1, 2, 3]⟩ ⟨[4, 5, 6]⟩
      (some 37) false 1).getD 5 0 = 37 ∧
    (build_cover_command CoverCommand.position ⟨[1, 2, 3]⟩ ⟨[4, 5, 6]⟩
      (some 150) false 1).getD 5 0 = 100 ∧
    (build_cover_command CoverCommand.position ⟨[1, 2, 3]⟩ ⟨[4, 5, 6]⟩
      (some (-5)) false 1).getD 5 0 = 0 ∧
    (build_cover_command CoverCommand.up ⟨[1, 2, 3]⟩ ⟨[4, 5, 6]⟩
      (some 37) false 1).getD 5 0 = 0 := by
  refine ⟨?_, ?_, ?_, ?_⟩
  · exact (C7_position_clamped.1 37 false 1 1 2 3 4 5 6).trans (by decide)
  · exact (C7_position_clamped.1 150 false 1 1 2 3 4 5 6).trans (by decide)
  · exact (C7_position_clamped.1 (-5) false 1 1 2 3 4 5 6).trans (by decide)
  · exact C7_position_clamped.2 CoverCommand.up (some 37) false 1 1 2 3 4 5 6 (by decide)

/-- C10: For every complete inbound frame handled in normal operation, if
byte 0 is not 0x81 the stick writes exactly one ACK frame (byte 0 = 0x81,
all other bytes zero) to the transport before any dispatch to the message
callback — including for broadcast-status-ack frames, which are acked but
never dispatched — and writes no ACK when the inbound frame is itself an
ACK. -/
theorem C10_ack_before_dispatch (f : List Nat) (h : f.length = 22) :
    (f.getD 0 0 ≠ 0x81 →
      on_frame_received f =
        StickEvent.tx (0x81 :: List.replicate 21 0) ::
          (if should_dispatch f then [StickEvent.dispatch f] else []) ∧
      ((on_frame_received f).filter StickEvent.isTx).length = 1) ∧
    (f.getD 0 0 = 0x0F → f.getD 1 0 = 0xFF → f.getD 2 0 = 0x11 →
      on_frame_received f = [StickEvent.tx (0x81 :: List.replicate 21 0)]) ∧
    (f.getD 0 0 = 0x81 → on_frame_received f = []) := by
  have hback : build_ack = 0x81 :: List.replicate 21 0 := by decide
  refine ⟨?_, ?_, ?_⟩
  · intro h0
    have hb : is_ack f = false := by simpa [is_ack] using h0
    constructor
    · unfold on_frame_received
      rw [hb, hback]
      rfl
    · unfold on_frame_received
      rw [hb]
      by_cases hd : should_dispatch f = true
      · rw [hd]
        rfl
      · rw [Bool.not_eq_true] at hd
        rw [hd]
        rfl
  · intro h0 h1 h2
    have hb : is_ack f = false := by
      unfold is_ack
      rw [h0]
      rfl
    have hd : should_dispatch f = false := by
      unfold should_dispatch
      rw [h0, h1, h2]
      rfl
    unfold on_frame_received
    rw [hb, hd, hback]
    rfl
  · intro h0
    have hb : is_ack f = true := by
      unfold is_ack
      rw [h0]
      decide
    unfold on_frame_received
    rw [hb]
    rfl

/-- Closed instance of C10_ack_before_dispatch: a status frame is acked then
dispatched, a broadcast-status-ack is acked only, an ACK produces nothing. -/
theorem C10_ack_before_dispatch_witness :
    on_frame_received ([0x0F, 0xFF, 0x0F] ++ List.replicate 19 0) =
      [StickEvent.tx (0x81 :: List.replicate 21 0),
        StickEvent.dispatch ([0x0F, 0xFF, 0x0F] ++ List.replicate 19 0)] ∧
    on_frame_received ([0x0F, 0xFF, 0x11] ++ List.replicate 19 0) =
      [StickEvent.tx (0x81 :: List.replicate 21 0)] ∧
    on_frame_received (0x81 :: List.replicate 21 0) = [] := by
  refine ⟨?_, ?_, ?_⟩
  · have h := (C10_ack_before_dispatch ([0x0F, 0xFF, 0x0F] ++ List.replicate 19 0)
      (by decide)).1 (by decide)
    exact h.1.trans (by decide)
  · exact (C10_ack_before_dispatch ([0x0F, 0xFF, 0x11] ++ List.replicate 19 0)
      (by decide)).2.1 (by decide) (by decide) (by decide)
  · exact (C10_ack_before_dispatch (0x81 :: List.replicate 21 0)
      (by decide)).2.2 (by decide)

/-- Every handshake attempt sends Init1 first, whatever the reply oracle. -/
theorem runAttempt_trace_head (devices : List DuoFernId) (ok : InitStep → Bool) :
    (runAttempt devices ok).trace.head? = some InitStep.init1 := by
  by_cases o1 : ok .init1 <;> by_cases o2 : ok .init2 <;>
    by_cases o3 : ok .setDongle <;> by_cases o4 : ok .init3 <;>
    by_cases o5 : ok .initEnd <;> by_cases o6 : ok .statusBroadcast <;>
    simp [runAttempt, o1, o2, o3, o4, o5, o6]

/-- Every attempt trace recorded by the attempt loop begins with Init1. -/
theorem initSeqGo_traces_head (devices : List DuoFernId) (ok : Nat → InitStep → Bool) :
    ∀ (r a : Nat), ∀ t ∈ (initSeqGo devices ok a r).2, t.head? = some InitStep.init1
  | 0, a => by simp [initSeqGo]
  | r + 1, a => by
    intro t ht
    unfold initSeqGo at ht
    by_cases hs : (runAttempt devices (ok a)).success = true
    · rw [if_pos hs] at ht
      simp only [List.mem_singleton] at ht
      subst ht
      exact runAttempt_trace_head devices (ok a)
    · rw [if_neg hs] at ht
      simp only [List.mem_cons] at ht
      rcases ht with rfl | ht
      · exact runAttempt_trace_head devices (ok a)
      · exact initSeqGo_traces_head devices ok r (a + 1) t ht

/-- C2: During the connection handshake, a timed-out step restarts the whole
sequence from Init1 (every attempt's trace begins with Init1), except that a
SetPair timeout is skipped without restarting (an attempt in which every
non-SetPair step gets a reply succeeds no matter what the SetPair replies
do); with no reply at all, exactly 4 attempts are made, each consisting of
the Init1 send alone, and the sequence ends in a connection error. -/
theorem C2_init_retry :
    (∀ (devices : List DuoFernId) (ok : Nat → InitStep → Bool),
      ∀ t ∈ (initSequence devices ok).2, t.head? = some InitStep.init1) ∧
    (∀ (devices : List DuoFernId) (ok : InitStep → Bool),
      (∀ s : InitStep, s.isSetPair = false → ok s = true) →
      (runAttempt devices ok).success = true) ∧
    (∀ devices : List DuoFernId,
      initSequence devices (fun _ _ => false) =
        (Except.error "DuoFern stick initialization failed after 4 attempts",
          List.replicate INIT_RETRY_COUNT [InitStep.init1])) := by
  refine ⟨?_, ?_, ?_⟩
  · intro devices ok t ht
    exact initSeqGo_traces_head devices ok INIT_RETRY_COUNT 0 t ht
  · intro devices ok hok
    have o1 := hok .init1 rfl
    have o2 := hok .init2 rfl
    have o3 := hok .setDongle rfl
    have o4 := hok .init3 rfl
    have o5 := hok .initEnd rfl
    have o6 := hok .statusBroadcast rfl
    simp [runAttempt, o1, o2, o3, o4, o5, o6]
  · intro devices
    rfl

/-- Closed instance of C2_init_retry: the no-reply trace is a member of the
failed run's attempt list and indeed starts with Init1, and an attempt whose
non-SetPair steps all reply succeeds. -/
theorem C2_init_retry_witness :
    ([InitStep.init1] : List InitStep).head? = some InitStep.init1 ∧
    (runAttempt [] (fun _ => true)).success = true := by
  constructor
  · exact C2_init_retry.1 [] (fun _ _ => false) [InitStep.init1] (by decide)
  · exact C2_init_retry.2.1 [] (fun _ => true) (fun s _ => rfl)

/-- Modelled from the spec: the consecutive complete 22-byte slices of a
byte stream, in order (what the framer is claimed to emit overall), with
the same iteration bound as the framer loop. -/
def slices22Go : Nat → List Nat → List (List Nat)
  | 0, _ => []
  | fuel + 1, l =>
    if 22 ≤ l.length then l.take 22 :: slices22Go fuel (l.drop 22) else []

/-- Modelled from the spec: the consecutive complete 22-byte slices of a
byte stream. -/
def slices22 (l : List Nat) : List (List Nat) :=
  slices22Go l.length l

/-- Unfolding the framer loop when a full frame is buffered. -/
theorem drainFramesGo_succ_of_le (F : Nat) (x : List Nat)
    (h : FRAME_SIZE_BYTES ≤ x.length) :
    drainFramesGo (F + 1) x =
      (x.take FRAME_SIZE_BYTES :: (drainFramesGo F (x.drop FRAME_SIZE_BYTES)).1,
        (drainFramesGo F (x.drop FRAME_SIZE_BYTES)).2) := by
  simp only [drainFramesGo]
  rw [if_pos h]

/-- Unfolding the framer loop when less than a full frame is buffered. -/
theorem drainFramesGo_succ_of_lt (F : Nat) (x : List Nat)
    (h : ¬FRAME_SIZE_BYTES ≤ x.length) :
    drainFramesGo (F + 1) x = ([], x) := by
  simp only [drainFramesGo]
  rw [if_neg h]

/-- The framer loop does nothing on an empty buffer. -/
theorem drainFramesGo_nil (F : Nat) : drainFramesGo F [] = ([], []) := by
  cases F with
  | zero => rfl
  | succ n =>
    exact drainFramesGo_succ_of_lt n [] (by simp [FRAME_SIZE_BYTES])

/-- The framer loop gives the same result under any sufficient bound. -/
theorem drainFramesGo_congr : ∀ (f1 f2 : Nat) (buf : List Nat),
    buf.length ≤ f1 → buf.length ≤ f2 →
    drainFramesGo f1 buf = drainFramesGo f2 buf
  | 0, 0, _, _, _ => rfl
  | 0, f2 + 1, buf, h1, _ => by
    have hnil : buf = [] := List.eq_nil_of_length_eq_zero (Nat.le_zero.mp h1)
    subst hnil
    rw [drainFramesGo_nil, drainFramesGo_nil]
  | f1 + 1, 0, buf, _, h2 => by
    have hnil : buf = [] := List.eq_nil_of_length_eq_zero (Nat.le_zero.mp h2)
    subst hnil
    rw [drainFramesGo_nil, drainFramesGo_nil]
  | f1 + 1, f2 + 1, buf, h1, h2 => by
    by_cases hb : FRAME_SIZE_BYTES ≤ buf.length
    · rw [drainFramesGo_succ_of_le f1 buf hb, drainFramesGo_succ_of_le f2 buf hb,
        drainFramesGo_congr f1 f2 (buf.drop FRAME_SIZE_BYTES)
          (by simp only [List.length_drop, FRAME_SIZE_BYTES] at *; omega)
          (by simp only [List.length_drop, FRAME_SIZE_BYTES] at *; omega)]
    · rw [drainFramesGo_succ_of_lt f1 buf hb, drainFramesGo_succ_of_lt f2 buf hb]

/-- The framer leaves strictly fewer than 22 bytes buffered. -/
theorem drainFramesGo_rem_lt : ∀ (fuel : Nat) (buf : List Nat),
    buf.length ≤ fuel → (drainFramesGo fuel buf).2.length < 22
  | 0, buf, h => by
    have hnil : buf = [] := List.eq_nil_of_length_eq_zero (Nat.le_zero.mp h)
    subst hnil
    rw [drainFramesGo_nil]
    show (0 : Nat) < 22
    omega
  | fuel + 1, buf, h => by
    by_cases hb : FRAME_SIZE_BYTES ≤ buf.length
    · rw [drainFramesGo_succ_of_le fuel buf hb]
      exact drainFramesGo_rem_lt fuel (buf.drop FRAME_SIZE_BYTES)
        (by simp only [List.length_drop, FRAME_SIZE_BYTES] at *; omega)
    · rw [drainFramesGo_succ_of_lt fuel buf hb]
      simp only [FRAME_SIZE_BYTES] at hb
      show buf.length < 22
      omega

/-- The framer leaves strictly fewer than 22 bytes buffered. -/
theorem drainFrames_rem_lt (buf : List Nat) : (drainFrames buf).2.length < 22 :=
  drainFramesGo_rem_lt buf.length buf (Nat.le_refl _)

/-- The emitted frames followed by the leftover buffer reassemble the input. -/
theorem drainFramesGo_flatten : ∀ (fuel : Nat) (buf : List Nat),
    (drainFramesGo fuel buf).1.flatten ++ (drainFramesGo fuel buf).2 = buf
  | 0, buf => by
    show ([] : List (List Nat)).flatten ++ buf = buf
    simp
  | fuel + 1, buf => by
    by_cases hb : FRAME_SIZE_BYTES ≤ buf.length
    · rw [drainFramesGo_succ_of_le fuel buf hb]
      show (buf.take FRAME_SIZE_BYTES ::
        (drainFramesGo fuel (buf.drop FRAME_SIZE_BYTES)).1).flatten ++
        (drainFramesGo fuel (buf.drop FRAME_SIZE_BYTES)).2 = buf
      rw [List.flatten_cons, List.append_assoc,
        drainFramesGo_flatten fuel (buf.drop FRAME_SIZE_BYTES)]
      exact List.take_append_drop _ buf
    · rw [drainFramesGo_succ_of_lt fuel buf hb]
      show ([] : List (List Nat)).flatten ++ buf = buf
      simp

/-- The emitted frames followed by the leftover buffer reassemble the input. -/
theorem drainFrames_flatten (buf : List Nat) :
    (drainFrames buf).1.flatten ++ (drainFrames buf).2 = buf :=
  drainFramesGo_flatten buf.length buf

/-- Every emitted frame is exactly 22 bytes. -/
theorem drainFramesGo_frame_len : ∀ (fuel : Nat) (buf : List Nat),
    ∀ fr ∈ (drainFramesGo fuel buf).1, fr.length = 22
  | 0, buf => by
    intro fr hfr
    exact absurd hfr (List.not_mem_nil fr)
  | fuel + 1, buf => by
    by_cases hb : FRAME_SIZE_BYTES ≤ buf.length
    · rw [drainFramesGo_succ_of_le fuel buf hb]
      intro fr hfr
      rcases List.mem_cons.mp hfr with rfl | hfr2
      · simp only [FRAME_SIZE_BYTES] at hb ⊢
        simp [List.length_take]
        omega
      · exact drainFramesGo_frame_len fuel (buf.drop FRAME_SIZE_BYTES) fr hfr2
    · rw [drainFramesGo_succ_of_lt fuel buf hb]
      intro fr hfr
      simp at hfr

/-- Every emitted frame is exactly 22 bytes. -/
theorem drainFrames_frame_len (buf : List Nat) :
    ∀ fr ∈ (drainFrames buf).1, fr.length = 22 :=
  drainFramesGo_frame_len buf.length buf

/-- The leftover buffer length is the input length mod 22. -/
theorem drainFramesGo_rem_mod : ∀ (fuel : Nat) (buf : List Nat),
    buf.length ≤ fuel → (drainFramesGo fuel buf).2.length = buf.length % 22
  | 0, buf, h => by
    have hnil : buf = [] := List.eq_nil_of_length_eq_zero (Nat.le_zero.mp h)
    subst hnil
    rw [drainFramesGo_nil]
    rfl
  | fuel + 1, buf, h => by
    by_cases hb : FRAME_SIZE_BYTES ≤ buf.length
    · rw [drainFramesGo_succ_of_le fuel buf hb]
      show (drainFramesGo fuel (buf.drop FRAME_SIZE_BYTES)).2.length = buf.length % 22
      rw [drainFramesGo_rem_mod fuel (buf.drop FRAME_SIZE_BYTES)
        (by simp only [List.length_drop, FRAME_SIZE_BYTES] at *; omega)]
      simp only [List.length_drop, FRAME_SIZE_BYTES] at hb ⊢
      omega
    · rw [drainFramesGo_succ_of_lt fuel buf hb]
      simp only [FRAME_SIZE_BYTES] at hb
      show buf.length = buf.length % 22
      omega

/-- The leftover buffer length is the input length mod 22. -/
theorem drainFrames_rem_mod (buf : List Nat) :
    (drainFrames buf).2.length = buf.length % 22 :=
  drainFramesGo_rem_mod buf.length buf (Nat.le_refl _)

/-- The frames the framer emits are the consecutive 22-byte slices. -/
theorem drainFramesGo_eq_slices : ∀ (fuel : Nat) (buf : List Nat),
    (drainFramesGo fuel buf).1 = slices22Go fuel buf
  | 0, _ => rfl
  | fuel + 1, buf => by
    by_cases hb : 22 ≤ buf.length
    · rw [drainFramesGo_succ_of_le fuel buf hb]
      show buf.take FRAME_SIZE_BYTES ::
          (drainFramesGo fuel (buf.drop FRAME_SIZE_BYTES)).1 = slices22Go (fuel + 1) buf
      rw [drainFramesGo_eq_slices fuel (buf.drop FRAME_SIZE_BYTES)]
      show buf.take 22 :: slices22Go fuel (buf.drop 22) = slices22Go (fuel + 1) buf
      simp only [slices22Go]
      rw [if_pos hb]
    · rw [drainFramesGo_succ_of_lt fuel buf hb]
      show ([] : List (List Nat)) = slices22Go (fuel + 1) buf
      simp only [slices22Go]
      rw [if_neg hb]

/-- The frames the framer emits are the consecutive 22-byte slices. -/
theorem drainFrames_eq_slices22 (buf : List Nat) :
    (drainFrames buf).1 = slices22 buf :=
  drainFramesGo_eq_slices buf.length buf

/-- Draining an appended stream under a shared sufficient bound splits as
draining the first part, then its leftover with the second part appended. -/
theorem drainFramesGo_append : ∀ (F : Nat) (a b : List Nat), (a ++ b).length ≤ F →
    drainFramesGo F (a ++ b) =
      ((drainFramesGo F a).1 ++ (drainFramesGo F ((drainFramesGo F a).2 ++ b)).1,
        (drainFramesGo F ((drainFramesGo F a).2 ++ b)).2)
  | 0, a, b, h => rfl
  | F + 1, a, b, h => by
    by_cases ha : FRAME_SIZE_BYTES ≤ a.length
    · have hab : FRAME_SIZE_BYTES ≤ (a ++ b).length := by
        simp only [List.length_append, FRAME_SIZE_BYTES] at ha ⊢
        omega
      have htake : (a ++ b).take FRAME_SIZE_BYTES = a.take FRAME_SIZE_BYTES :=
        List.take_append_of_le_length ha
      have hdrop : (a ++ b).drop FRAME_SIZE_BYTES = a.drop FRAME_SIZE_BYTES ++ b :=
        List.drop_append_of_le_length ha
      have hlen : (a.drop FRAME_SIZE_BYTES ++ b).length ≤ F := by
        simp only [List.length_append, List.length_drop, FRAME_SIZE_BYTES] at *
        omega
      have ih := drainFramesGo_append F (a.drop FRAME_SIZE_BYTES) b hlen
      have hremlt : (drainFramesGo F (a.drop FRAME_SIZE_BYTES)).2.length < 22 :=
        drainFramesGo_rem_lt F (a.drop FRAME_SIZE_BYTES)
          (by simp only [List.length_append, List.length_drop, FRAME_SIZE_BYTES] at *
              omega)
      have hcongr : drainFramesGo F ((drainFramesGo F (a.drop FRAME_SIZE_BYTES)).2 ++ b) =
          drainFramesGo (F + 1) ((drainFramesGo F (a.drop FRAME_SIZE_BYTES)).2 ++ b) := by
        apply drainFramesGo_congr
        · simp only [List.length_append, List.length_drop, FRAME_SIZE_BYTES] at *
          omega
        · simp only [List.length_append, List.length_drop, FRAME_SIZE_BYTES] at *
          omega
      calc drainFramesGo (F + 1) (a ++ b)
          = ((a ++ b).take FRAME_SIZE_BYTES ::
              (drainFramesGo F ((a ++ b).drop FRAME_SIZE_BYTES)).1,
              (drainFramesGo F ((a ++ b).drop FRAME_SIZE_BYTES)).2) :=
            drainFramesGo_succ_of_le F (a ++ b) hab
        _ = (a.take FRAME_SIZE_BYTES ::
              (drainFramesGo F (a.drop FRAME_SIZE_BYTES ++ b)).1,
              (drainFramesGo F (a.drop FRAME_SIZE_BYTES ++ b)).2) := by
            rw [htake, hdrop]
        _ = (a.take FRAME_SIZE_BYTES ::
              ((drainFramesGo F (a.drop FRAME_SIZE_BYTES)).1 ++
                (drainFramesGo F
                  ((drainFramesGo F (a.drop FRAME_SIZE_BYTES)).2 ++ b)).1),
              (drainFramesGo F
                ((drainFramesGo F (a.drop FRAME_SIZE_BYTES)).2 ++ b)).2) := by
            rw [ih]
        _ = ((drainFramesGo (F + 1) a).1 ++
              (drainFramesGo (F + 1) ((drainFramesGo (F + 1) a).2 ++ b)).1,
              (drainFramesGo (F + 1) ((drainFramesGo (F + 1) a).2 ++ b)).2) := by
            rw [drainFramesGo_succ_of_le F a ha, ← hcongr]
            simp
    · have hgo : drainFramesGo (F + 1) a = ([], a) :=
        drainFramesGo_succ_of_lt F a ha
      rw [hgo]
      simp

/-- Draining an appended stream splits as draining the first part, then
draining its leftover with the second part appended. -/
theorem drainFrames_append (a b : List Nat) :
    drainFrames (a ++ b) =
      ((drainFrames a).1 ++ (drainFrames ((drainFrames a).2 ++ b)).1,
        (drainFrames ((drainFrames a).2 ++ b)).2) := by
  have hrem : (drainFrames a).2.length ≤ a.length := by
    rw [drainFrames_rem_mod a]
    exact Nat.mod_le _ _
  have h1 := drainFramesGo_append (a ++ b).length a b (Nat.le_refl _)
  have hc1 : drainFramesGo (a ++ b).length a = drainFrames a := by
    apply drainFramesGo_congr
    · simp only [List.length_append]
      omega
    · exact Nat.le_refl _
  have hc2 : drainFramesGo (a ++ b).length ((drainFrames a).2 ++ b) =
      drainFrames ((drainFrames a).2 ++ b) := by
    apply drainFramesGo_congr
    · simp only [List.length_append] at *
      omega
    · exact Nat.le_refl _
  show drainFramesGo (a ++ b).length (a ++ b) = _
  rw [h1, hc1, hc2]

/-- A buffer shorter than one frame passes through the framer unchanged. -/
theorem drainFrames_short (buf : List Nat) (h : buf.length < 22) :
    drainFrames buf = ([], buf) := by
  show drainFramesGo buf.length buf = ([], buf)
  cases hF : buf.length with
  | zero =>
    have hnil : buf = [] := List.eq_nil_of_length_eq_zero hF
    subst hnil
    rfl
  | succ n =>
    exact drainFramesGo_succ_of_lt n buf
      (by simp only [FRAME_SIZE_BYTES]; omega)

/-- Folding chunks through data_received, starting from a buffer shorter
than a frame, is draining the buffer with all chunks appended. -/
theorem processChunks_go (chunks : List (List Nat)) :
    ∀ (fs : List (List Nat)) (buf : List Nat), buf.length < 22 →
      chunks.foldl
        (fun acc chunk =>
          let out := data_received acc.2 chunk
          (acc.1 ++ out.1, out.2))
        (fs, buf) =
      (fs ++ (drainFrames (buf ++ chunks.flatten)).1,
        (drainFrames (buf ++ chunks.flatten)).2) := by
  induction chunks with
  | nil =>
    intro fs buf hlt
    simp only [List.foldl_nil, List.flatten_nil, List.append_nil]
    rw [drainFrames_short buf hlt]
    simp
  | cons c rest ih =>
    intro fs buf hlt
    simp only [List.foldl_cons, List.flatten_cons]
    rw [ih (fs ++ (data_received buf c).1) (data_received buf c).2
      (drainFrames_rem_lt (buf ++ c))]
    unfold data_received
    rw [show buf ++ (c ++ rest.flatten) = (buf ++ c) ++ rest.flatten from by
      simp [List.append_assoc]]
    rw [drainFrames_append (buf ++ c) rest.flatten]
    simp

/-- C3: For every sequence of inbound byte chunks, the framer emits exactly
the consecutive 22-byte slices of the concatenated stream, in arrival order
(frames then leftover reassemble the stream, every frame is 22 bytes, and
the retained buffer is the total length mod 22); a flush empties the buffer
entirely, so 22 fresh bytes arriving after a flush yield exactly one frame
built only from those fresh bytes. -/
theorem C3_framer :
    (∀ chunks : List (List Nat),
      (processChunks chunks).1 = slices22 chunks.flatten ∧
      (processChunks chunks).1.flatten ++ (processChunks chunks).2 = chunks.flatten ∧
      (∀ fr ∈ (processChunks chunks).1, fr.length = 22) ∧
      (processChunks chunks).2.length = chunks.flatten.length % 22) ∧
    (∀ buf : List Nat, flush_buffer buf = []) ∧
    (∀ (buf fresh : List Nat), fresh.length = 22 →
      data_received (flush_buffer buf) fresh = ([fresh], [])) := by
  refine ⟨?_, fun _ => rfl, ?_⟩
  · intro chunks
    have hp : processChunks chunks =
        ((drainFrames chunks.flatten).1, (drainFrames chunks.flatten).2) := by
      unfold processChunks
      rw [processChunks_go chunks [] [] (by simp)]
      simp
    rw [hp]
    exact ⟨drainFrames_eq_slices22 chunks.flatten, drainFrames_flatten chunks.flatten,
      drainFrames_frame_len chunks.flatten, drainFrames_rem_mod chunks.flatten⟩
  · intro buf fresh hlen
    show drainFrames ([] ++ fresh) = ([fresh], [])
    rw [List.nil_append]
    show drainFramesGo fresh.length fresh = ([fresh], [])
    rw [hlen]
    rw [show (22 : Nat) = 21 + 1 from rfl]
    rw [drainFramesGo_succ_of_le 21 fresh
      (by simp only [FRAME_SIZE_BYTES, hlen]; omega)]
    rw [show fresh.drop FRAME_SIZE_BYTES = [] from by
      simp [FRAME_SIZE_BYTES, List.drop_eq_nil_iff, hlen]]
    rw [show fresh.take FRAME_SIZE_BYTES = fresh from by
      show fresh.take 22 = fresh
      rw [← hlen, List.take_length]]
    rw [drainFramesGo_nil]

/-- Closed instance of C3_framer: 44 bytes in chunks of 10 and 34 yield two
frames in order; 27 buffered bytes are cleared by a flush, after which 22
fresh bytes yield exactly one frame made of those fresh bytes. -/
theorem C3_framer_witness :
    (processChunks [List.range 10, List.drop 10 (List.range 44)]).1 =
      [List.take 22 (List.range 44), List.drop 22 (List.range 44)] ∧
    data_received (flush_buffer (List.range 27)) (List.range 22) =
      ([List.range 22], []) := by
  constructor
  · have h := (C3_framer.1 [List.range 10, List.drop 10 (List.range 44)]).1
    exact h.trans (by decide)
  · exact C3_framer.2.2 (List.range 27) (List.range 22) (by decide)

/-- Unfolding the hex parser on a pair headed by a non-space character. -/
theorem fromhexCore_cons_cons (c c2 : Char) (rest2 : List Char) (h : c ≠ ' ') :
    fromhexCore (c :: c2 :: rest2) =
      match hexDigit c, hexDigit c2, fromhexCore rest2 with
      | some hh, some ll, some bs => some ((16 * hh + ll) :: bs)
      | _, _, _ => none := by
  simp only [fromhexCore]
  rw [if_neg h]

/-- Unfolding the hex parser on a leading space. -/
theorem fromhexCore_cons_space (rest : List Char) :
    fromhexCore (' ' :: rest) = fromhexCore rest := by
  cases rest with
  | nil => rfl
  | cons c2 rest2 => rfl

/-- A successful hex parse accounts for the input length: two characters
per byte plus the skipped spaces. -/
theorem fromhexCore_len : ∀ (cs : List Char) (bs : List Nat),
    fromhexCore cs = some bs → 2 * bs.length + cs.count ' ' = cs.length
  | [], bs, h => by
    have hb : ([] : List Nat) = bs := by
      simpa [fromhexCore] using h
    subst hb
    rfl
  | c :: rest, bs, h => by
    by_cases hsp : c = ' '
    · subst hsp
      rw [fromhexCore_cons_space rest] at h
      have ih := fromhexCore_len rest bs h
      simp only [List.count_cons, List.length_cons]
      simp
      omega
    · cases rest with
      | nil =>
        exfalso
        have hnone : fromhexCore [c] = none := by
          simp [fromhexCore, hsp]
        rw [hnone] at h
        exact Option.noConfusion h
      | cons c2 rest2 =>
        rw [fromhexCore_cons_cons c c2 rest2 hsp] at h
        cases hd1 : hexDigit c with
        | none =>
          rw [hd1] at h
          exact Option.noConfusion h
        | some hh =>
          rw [hd1] at h
          cases hd2 : hexDigit c2 with
          | none =>
            rw [hd2] at h
            exact Option.noConfusion h
          | some ll =>
            rw [hd2] at h
            cases hfc : fromhexCore rest2 with
            | none =>
              rw [hfc] at h
              exact Option.noConfusion h
            | some bs2 =>
              rw [hfc] at h
              injection h with hx
              subst hx
              have ih := fromhexCore_len rest2 bs2 hfc
              have hc2ne : c2 ≠ ' ' := by
                intro hq
                subst hq
                rw [show hexDigit ' ' = none from rfl] at hd2
                exact Option.noConfusion hd2
              simp only [List.count_cons, List.length_cons]
              simp [hsp, hc2ne]
              omega

/-- Every character consumed by a successful hex parse is a space or a hex
digit. -/
theorem fromhexCore_chars : ∀ (cs : List Char) (bs : List Nat),
    fromhexCore cs = some bs → ∀ ch ∈ cs, ch = ' ' ∨ isHexChar ch = true
  | [], _, _ => by
    intro ch hch
    exact absurd hch (List.not_mem_nil ch)
  | c :: rest, bs, h => by
    by_cases hsp : c = ' '
    · subst hsp
      rw [fromhexCore_cons_space rest] at h
      intro ch hch
      rcases List.mem_cons.mp hch with rfl | hm
      · exact Or.inl rfl
      · exact fromhexCore_chars rest bs h ch hm
    · cases rest with
      | nil =>
        exfalso
        have hnone : fromhexCore [c] = none := by
          simp [fromhexCore, hsp]
        rw [hnone] at h
        exact Option.noConfusion h
      | cons c2 rest2 =>
        rw [fromhexCore_cons_cons c c2 rest2 hsp] at h
        cases hd1 : hexDigit c with
        | none =>
          rw [hd1] at h
          exact Option.noConfusion h
        | some hh =>
          rw [hd1] at h
          cases hd2 : hexDigit c2 with
          | none =>
            rw [hd2] at h
            exact Option.noConfusion h
          | some ll =>
            rw [hd2] at h
            cases hfc : fromhexCore rest2 with
            | none =>
              rw [hfc] at h
              exact Option.noConfusion h
            | some bs2 =>
              intro ch hch
              rcases List.mem_cons.mp hch with rfl | hm
              · exact Or.inr (by simp [isHexChar, hd1])
              rcases List.mem_cons.mp hm with rfl | hm2
              · exact Or.inr (by simp [isHexChar, hd2])
              · exact fromhexCore_chars rest2 bs2 hfc ch hm2

/-- An even-length all-hex character list parses to exactly half as many
bytes. -/
theorem fromhexCore_of_allhex : ∀ (cs : List Char),
    (∀ ch ∈ cs, isHexChar ch = true) → cs.length % 2 = 0 →
    ∃ bs, fromhexCore cs = some bs ∧ 2 * bs.length = cs.length
  | [] => fun _ _ => ⟨[], rfl, rfl⟩
  | [c] => by
    intro _ hev
    simp at hev
  | c :: c2 :: rest2 => by
    intro hall hev
    have hc : isHexChar c = true := hall c (by simp)
    have hc2 : isHexChar c2 = true := hall c2 (by simp)
    have hcs : c ≠ ' ' := by
      intro hq
      subst hq
      exact absurd hc (by decide)
    obtain ⟨hh, hd1⟩ := Option.isSome_iff_exists.mp hc
    obtain ⟨ll, hd2⟩ := Option.isSome_iff_exists.mp hc2
    have hev2 : rest2.length % 2 = 0 := by
      simp only [List.length_cons] at hev
      omega
    obtain ⟨bs2, hfc, hlen⟩ := fromhexCore_of_allhex rest2
      (fun ch hm => hall ch (by simp [hm])) hev2
    refine ⟨(16 * hh + ll) :: bs2, ?_, ?_⟩
    · rw [fromhexCore_cons_cons c c2 rest2 hcs, hd1, hd2, hfc]
    · simp only [List.length_cons]
      omega

/-- C9 counterexample against the claim as stated: with the serial port
open but the initialization handshake not completed, the stick is not
connected in the sense of the `connected` property (port open AND init
done), yet send_command succeeds and enqueues instead of failing with a
connection error. -/
theorem C9_send_command_counterexample :
    StickState.connectedProperty ⟨true, false, []⟩ = false ∧
    send_command ⟨true, false, []⟩ build_ack =
      Except.ok ⟨true, false, [build_ack]⟩ := by
  exact ⟨rfl, rfl⟩

/-- C9 (amended): send_command fails with a connection error exactly when
the serial port is not open (the `_connected` field alone), and otherwise
enqueues the frame — even when the initialization handshake has not
completed. -/
theorem C9_send_command_amended (s : StickState) (f : List Nat) :
    (s.is_open = false →
      send_command s f = Except.error "DuoFern stick not connected") ∧
    (s.is_open = true →
      send_command s f =
        Except.ok { s with send_queue := s.send_queue ++ [f] }) := by
  constructor
  · intro h
    unfold send_command
    rw [h]
    rfl
  · intro h
    unfold send_command
    rw [h]
    rfl

/-- Closed instance of C9_send_command_amended: port closed fails, port
open enqueues. -/
theorem C9_send_command_amended_witness :
    send_command ⟨false, false, []⟩ build_ack =
      Except.error "DuoFern stick not connected" ∧
    send_command ⟨true, true, []⟩ build_ack =
      Except.ok ⟨true, true, [build_ack]⟩ := by
  exact ⟨(C9_send_command_amended ⟨false, false, []⟩ build_ack).1 rfl,
    (C9_send_command_amended ⟨true, true, []⟩ build_ack).2 rfl⟩

/-- The 44-character string "0F" followed by 42 ASCII spaces. -/
def hex44spaces : String := "0F" ++ String.mk (List.replicate 42 ' ')

/-- C8 counterexample against the claim as stated: a 44-character string
input that is not 44 hex characters (and names only 1 byte, not 22) is
accepted by _ensure_bytes, which returns the truncated 1-byte value rather
than failing at the boundary. -/
theorem C8_ensure_bytes_counterexample :
    hex44spaces.length = 44 ∧
    ensure_bytes (RawInput.hexStr hex44spaces) = some [0x0F] ∧
    ([0x0F] : List Nat).length ≠ FRAME_SIZE_BYTES := by
  exact ⟨by decide, by decide, by decide⟩

/-- C8 (amended): constructing an identifier from a string that is not
exactly 6 hex characters fails, and a 6-hex-digit string yields the full
3-byte identifier; the decoder rejects byte input that is not exactly 22
bytes and string input that is not exactly 44 characters, and a string of
44 hex digits yields the full 22-byte frame; but — unlike the original
claim — a 44-character string with ASCII spaces between hex-digit pairs is
accepted and yields a shorter byte value (two characters per byte plus the
skipped spaces), so the boundary check is by character count, not by
decoded byte count. -/
theorem C8_malformed_input :
    (∀ s : String,
      ¬(s.length = 6 ∧ ∀ ch ∈ s.data, isHexChar ch = true) →
      DuoFernId.from_hex s = none) ∧
    (∀ (s : String) (idv : DuoFernId),
      DuoFernId.from_hex s = some idv → idv.raw.length = 3) ∧
    (∀ s : String, s.length = 6 → (∀ ch ∈ s.data, isHexChar ch = true) →
      ∃ idv, DuoFernId.from_hex s = some idv ∧ idv.raw.length = 3) ∧
    (∀ b : List Nat, b.length ≠ FRAME_SIZE_BYTES →
      ensure_bytes (RawInput.bytes b) = none) ∧
    (∀ b : List Nat, b.length = FRAME_SIZE_BYTES →
      ensure_bytes (RawInput.bytes b) = some b) ∧
    (∀ s : String, s.length ≠ FRAME_SIZE_HEX →
      ensure_bytes (RawInput.hexStr s) = none) ∧
    (∀ s : String, s.length = FRAME_SIZE_HEX →
      (∀ ch ∈ s.data, isHexChar ch = true) →
      ∃ frame, ensure_bytes (RawInput.hexStr s) = some frame ∧
        frame.length = FRAME_SIZE_BYTES) ∧
    (∀ (s : String) (frame : List Nat),
      ensure_bytes (RawInput.hexStr s) = some frame →
      s.length = FRAME_SIZE_HEX ∧
        2 * frame.length + s.data.count ' ' = FRAME_SIZE_HEX) := by
  have hlen_data : ∀ s : String, s.length = s.data.length := fun s => rfl
  refine ⟨?_, ?_, ?_, ?_, ?_, ?_, ?_, ?_⟩
  · intro s hn
    by_cases h6 : s.length = 6
    · unfold DuoFernId.from_hex
      rw [if_neg (by simpa using h6)]
      cases hfc : fromhexCore s.data with
      | none => rfl
      | some raw =>
        by_cases h3 : raw.length = 3
        · exfalso
          have hcount := fromhexCore_len s.data raw hfc
          rw [h3, ← hlen_data s, h6] at hcount
          have hzero : s.data.count ' ' = 0 := by omega
          have hnosp : ' ' ∉ s.data := List.count_eq_zero.mp hzero
          refine hn ⟨h6, fun ch hch => ?_⟩
          rcases fromhexCore_chars s.data raw hfc ch hch with rfl | hx
          · exact absurd hch hnosp
          · exact hx
        · show mkDuoFernId raw = none
          unfold mkDuoFernId
          rw [if_neg h3]
    · unfold DuoFernId.from_hex
      rw [if_pos h6]
  · intro s idv h
    unfold DuoFernId.from_hex at h
    by_cases h6 : s.length ≠ 6
    · rw [if_pos h6] at h
      exact Option.noConfusion h
    · rw [if_neg h6] at h
      cases hfc : fromhexCore s.data with
      | none =>
        rw [hfc] at h
        exact Option.noConfusion h
      | some raw =>
        rw [hfc] at h
        have h2 : mkDuoFernId raw = some idv := h
        unfold mkDuoFernId at h2
        by_cases h3 : raw.length = 3
        · rw [if_pos h3] at h2
          injection h2 with hx
          subst hx
          exact h3
        · rw [if_neg h3] at h2
          exact Option.noConfusion h2
  · intro s h6 hall
    have hev : s.data.length % 2 = 0 := by
      rw [← hlen_data s, h6]
    obtain ⟨bs, hfc, hlen⟩ := fromhexCore_of_allhex s.data hall hev
    have h3 : bs.length = 3 := by
      rw [← hlen_data s, h6] at hlen
      omega
    refine ⟨⟨bs⟩, ?_, h3⟩
    unfold DuoFernId.from_hex
    rw [if_neg (by simpa using h6), hfc]
    show mkDuoFernId bs = some ⟨bs⟩
    unfold mkDuoFernId
    rw [if_pos h3]
  · intro b hb
    show (if b.length ≠ FRAME_SIZE_BYTES then none else some b) = none
    rw [if_pos hb]
  · intro b hb
    show (if b.length ≠ FRAME_SIZE_BYTES then none else some b) = some b
    rw [if_neg (by simp [hb])]
  · intro s hs
    show (if s.length ≠ FRAME_SIZE_HEX then none else fromhexCore s.data) = none
    rw [if_pos hs]
  · intro s hs hall
    have hev : s.data.length % 2 = 0 := by
      rw [← hlen_data s, hs]
      rfl
    obtain ⟨bs, hfc, hlen⟩ := fromhexCore_of_allhex s.data hall hev
    refine ⟨bs, ?_, ?_⟩
    · show (if s.length ≠ FRAME_SIZE_HEX then none else fromhexCore s.data) = some bs
      rw [if_neg (by simp [hs]), hfc]
    · rw [← hlen_data s, hs] at hlen
      unfold FRAME_SIZE_HEX at hlen
      unfold FRAME_SIZE_BYTES
      omega
  · intro s frame h
    have h2 : (if s.length ≠ FRAME_SIZE_HEX then none else fromhexCore s.data)
        = some frame := h
    by_cases hs : s.length ≠ FRAME_SIZE_HEX
    · rw [if_pos hs] at h2
      exact Option.noConfusion h2
    · rw [if_neg hs] at h2
      rw [Classical.not_not] at hs
      refine ⟨hs, ?_⟩
      have hL := fromhexCore_len s.data frame h2
      rw [← hlen_data s, hs] at hL
      unfold FRAME_SIZE_HEX at hL ⊢
      omega

/-- Closed instance of C8_malformed_input: a 2-character string and a
7-character string are rejected as identifiers; "6F1A2B" yields the 3-byte
identifier; a 1-byte input and a 2-character string are rejected by the
decoder; 44 zeros decode to a full 22-byte frame. -/
theorem C8_malformed_input_witness :
    DuoFernId.from_hex "0F" = none ∧
    DuoFernId.from_hex "6F1A2G" = none ∧
    (∃ idv, DuoFernId.from_hex "6F1A2B" = some idv ∧ idv.raw.length = 3) ∧
    ensure_bytes (RawInput.bytes [0]) = none ∧
    ensure_bytes (RawInput.bytes (List.replicate 22 0)) =
      some (List.replicate 22 0) ∧
    ensure_bytes (RawInput.hexStr "00") = none ∧
    (∃ frame, ensure_bytes (RawInput.hexStr
        (String.mk (List.replicate 44 (Char.ofNat 48)))) = some frame ∧
      frame.length = FRAME_SIZE_BYTES) := by
  refine ⟨?_, ?_, ?_, ?_, ?_, ?_, ?_⟩
  · exact C8_malformed_input.1 "0F" (by decide)
  · exact C8_malformed_input.1 "6F1A2G" (by decide)
  · exact C8_malformed_input.2.2.1 "6F1A2B" (by decide) (by decide)
  · exact C8_malformed_input.2.2.2.1 [0] (by decide)
  · exact C8_malformed_input.2.2.2.2.1 (List.replicate 22 0) (by decide)
  · exact C8_malformed_input.2.2.2.2.2.1 "00" (by decide)
  · exact C8_malformed_input.2.2.2.2.2.2.1
      (String.mk (List.replicate 44 (Char.ofNat 48))) (by decide) (by decide)

end DuoFern
